import Mathlib

/-! Verification of the Lisper evaluator (src/eval.rs, src/expr.rs,
src/scope.rs, src/comparison.rs). The evaluator is embedded shallowly: the
shared mutable
scope chain (Rc cells of Scope in Rust) becomes a store of frames indexed by
natural numbers, printing becomes an output trace in the state, Rust panics
(out-of-bounds indexing, division by zero) become an explicit panic outcome,
and host stack exhaustion is modelled by a fuel parameter bounding the depth
of nested evaluator calls. Machine integers (i64) are modelled as unbounded
integers; none of the statements below involve values near the i64 bounds.
-/

namespace Lisper

/-- Model of the constant MAX_RECURSION_DEPTH in src/eval.rs. -/
def MAX_RECURSION_DEPTH : Nat := 1024

/-- Model of the EvalError enumeration in src/eval.rs. -/
inductive EvalError where
  | UndefinedVariable (name : String)
  | UndefinedFunction (name : String)
  | ArgumentCount (name : String) (argCount : Nat)
  | IllegalArgument (name : String) (msg : String)
  | Unimplemented
  | MaximumRecursionDepthReached (max : Nat)
  | Unreachable
  | Internal
  deriving Repr, DecidableEq

/-- Model of the Expr enumeration in src/expr.rs. The captured environment of
a Lambda (a PassableScope, i.e. an Rc cell) is modelled as the index of the
captured frame in the store of frames. -/
inductive Expr where
  | Integer (n : Int)
  | Boolean (b : Bool)
  | If
  | Op (s : String)
  | Keyword (s : String)
  | Symbol (s : String)
  | List (l : List Expr)
  | Lambda (params : List String) (body : List Expr) (env : Nat)
  | NoOp
  deriving Repr, Inhabited

mutual

/-- Model of the derived PartialEq on Expr, used by the equality operators.
Rust compares the captured scopes of two Lambda values by content; here scope
references are compared by index. The difference is unobservable: a bare
Symbol bound to a Lambda evaluates to an Unimplemented error, so Lambda values
can never reach the equality operators. -/
def beqExpr : Expr → Expr → Bool
  | .Integer a, .Integer b => a == b
  | .Boolean a, .Boolean b => a == b
  | .If, .If => true
  | .Op a, .Op b => a == b
  | .Keyword a, .Keyword b => a == b
  | .Symbol a, .Symbol b => a == b
  | .List a, .List b => beqExprList a b
  | .Lambda p b e, .Lambda q c f => p == q && (beqExprList b c && e == f)
  | .NoOp, .NoOp => true
  | _, _ => false

/-- Elementwise equality of expression lists (derived PartialEq on Vec). -/
def beqExprList : List Expr → List Expr → Bool
  | [], [] => true
  | a :: as, b :: bs => beqExpr a b && beqExprList as bs
  | _, _ => false

end

/-- Model of the Scope structure in src/scope.rs: one frame of bindings plus
an optional parent reference. The Rust HashMap is modelled as an association
list where set prepends the new binding; lookup returns the most recent
binding for a key, which is observationally the same as HashMap overwrite. -/
structure Scope where
  entities : List (String × Expr)
  parent : Option Nat
  deriving Repr, Inhabited

/-- Model of Scope::set: insert or overwrite a binding in this frame only. -/
def Scope.set (s : Scope) (key : String) (value : Expr) : Scope :=
  { s with entities := (key, value) :: s.entities }

/-- The HashMap lookup inside Scope::get (this frame only, no parent). -/
def Scope.find (s : Scope) (key : String) : Option Expr :=
  s.entities.lookup key

/-- Model of the program state: the store of scope frames (each PassableScope,
an Rc cell, is an index into this store) together with the standard-output
sink written by the print built-in. -/
structure State where
  scopes : List Scope
  out : List String
  deriving Repr, Inhabited

/-- Model of Scope::get: look up the key in the frame, and on a miss delegate
to the parent chain. In Rust the recursion follows Rc parent links; here a
parent is a store index. Every frame built by evaluation has a parent index
strictly smaller than its own index (extend appends a fresh frame at the end
of the store), so the chain starting at a reference r has length at most
r + 1; that explicit bound makes the recursion structural. -/
def getAux : Nat → List Scope → Nat → String → Option Expr
  | 0, _, _, _ => none
  | bound+1, scopes, r, key =>
    match scopes.get? r with
    | none => none
    | some sc =>
      match sc.find key with
      | some v => some v
      | none =>
        match sc.parent with
        | none => none
        | some p => getAux bound scopes p key

/-- Lookup through a scope handle (env.borrow().get(key) in the source). -/
def State.get (st : State) (r : Nat) (key : String) : Option Expr :=
  getAux (r + 1) st.scopes r key

/-- Mutation through a scope handle (env.borrow_mut().set(key, value)): the
frame at index r is updated in place; no other frame is touched. -/
def State.setVar (st : State) (r : Nat) (key : String) (value : Expr) : State :=
  match st.scopes.get? r with
  | none => st
  | some sc => { st with scopes := st.scopes.set r (sc.set key value) }

/-- Model of Scope::extend: append a fresh empty frame whose parent is the
given reference, and return the new frame's reference. -/
def State.extend (st : State) (parent : Nat) : State × Nat :=
  ({ st with scopes := st.scopes ++ [⟨[], some parent⟩] }, st.scopes.length)

/-- Result of one evaluation. The panic outcome models a Rust panic, i.e. a
host-level crash (out-of-bounds indexing, division by zero, and the i64
division overflow i64 minimum divided by -1, which panics in every build
profile); the diverge outcome models exhausting the host stack (the fuel
parameter below); the overflow outcome marks an execution in which an i64
addition, subtraction or multiplication left the i64 range, where the two
build profiles of the source disagree (a debug build panics at that step, a
release build wraps and continues) - the model flags such executions and
asserts nothing about the program beyond that point. All are distinct from a
reported EvalError. -/
inductive Outcome where
  | ok (e : Expr)
  | err (e : EvalError)
  | panic
  | diverge
  | overflow
  deriving Repr, Inhabited

/-- A collected Result of evaluating one argument (Result of Expr/EvalError
in the source). -/
abbrev EvalResult := Except EvalError Expr

/-- Result of collecting the evaluations of a list of arguments: either the
list of collected Results, or a panic, stack exhaustion or build-dependent
arithmetic overflow that interrupted the collection. -/
inductive ListOutcome where
  | ok (rs : List EvalResult)
  | panic
  | diverge
  | overflow
  deriving Repr, Inhabited

/-- Result of the parameter-binding loop of a closure call. -/
inductive BindOutcome where
  | done
  | err (e : EvalError)
  | panic
  | diverge
  | overflow
  deriving Repr, Inhabited

/-- Model of evaluated.iter().find(r.is_err()): the first collected error. -/
def firstErr : List EvalResult → Option EvalError
  | [] => none
  | .error e :: _ => some e
  | .ok _ :: rest => firstErr rest

/-- Model of evaluated.iter().filter_map(e.ok()): the collected values. -/
def okValues : List EvalResult → List Expr
  | [] => []
  | .ok v :: rest => v :: okValues rest
  | .error _ :: rest => okValues rest

/-- The smallest i64 value: the integers of the source are Rust i64. -/
def INT64_MIN : Int := -9223372036854775808

/-- The largest i64 value. -/
def INT64_MAX : Int := 9223372036854775807

/-- Whether a mathematical integer is representable as an i64. -/
def inI64 (n : Int) : Bool :=
  decide (INT64_MIN ≤ n) && decide (n ≤ INT64_MAX)

/-- Result of the plus, minus and times accumulation loops. The overflow
result marks the accumulation step at which an i64 += , -= or *= left the
i64 range: from that step on the debug profile of the source panics while
the release profile wraps, so the model records the divergence and asserts
nothing further. -/
inductive ArithRes where
  | ok (n : Int)
  | err (e : EvalError)
  | overflow
  deriving Repr, Inhabited

/-- Accumulation loop of the plus operator (src/eval.rs lines 195-205): any
collected entry that is not an Ok Integer is an illegal argument (the loop
runs after the first-error check, so the error arm there is only reached by
a non-integer value), and every += is i64 machine addition, checked against
the i64 range. -/
def plusLoop : Int → List EvalResult → ArithRes
  | sum, [] => .ok sum
  | sum, .ok (.Integer v) :: rest =>
    if inI64 (sum + v) then plusLoop (sum + v) rest else .overflow
  | _, _ => .err (.IllegalArgument ("+") ("All arguments must be numbers"))

/-- Accumulation loop of the times operator (src/eval.rs lines 247-257),
with *= as checked i64 machine multiplication. -/
def timesLoop : Int → List EvalResult → ArithRes
  | result, [] => .ok result
  | result, .ok (.Integer v) :: rest =>
    if inI64 (result * v) then timesLoop (result * v) rest else .overflow
  | _, _ => .err (.IllegalArgument ("*") ("All arguments must be numbers"))

/-- Accumulation loop of the minus operator (src/eval.rs lines 218-234): the
entry at index 0 replaces the accumulator (a plain assignment, no
arithmetic), later entries are subtracted with -= as checked i64 machine
subtraction. -/
def subLoop : Int → Nat → List EvalResult → ArithRes
  | result, _, [] => .ok result
  | result, i, .ok (.Integer v) :: rest =>
    if i = 0 then subLoop v (i + 1) rest
    else if inI64 (result - v) then subLoop (result - v) (i + 1) rest
    else .overflow
  | _, _, _ => .err (.IllegalArgument ("-") ("All arguments must be numbers"))

/-- Result of the division loop: dividing by zero, or overflowing with the
i64 minimum divided by -1, panics the host in every build profile. -/
inductive DivOutcome where
  | ok (n : Int)
  | err (e : EvalError)
  | panic
  deriving Repr, Inhabited

/-- Accumulation loop of the division operator (src/eval.rs lines 270-286):
the entry at index 0 replaces the accumulator, later entries divide it with
Rust i64 division, which truncates toward zero (Int.tdiv here) and panics on
a zero divisor and on the single overflowing division, the i64 minimum
divided by -1 (both panics occur in debug and release builds alike). Any
other quotient of representable operands is representable, so no further
range check is needed. -/
def divLoop : Int → Nat → List EvalResult → DivOutcome
  | result, _, [] => .ok result
  | result, i, .ok (.Integer v) :: rest =>
    if i = 0 then divLoop v (i + 1) rest
    else if v = 0 then .panic
    else if result = INT64_MIN ∧ v = -1 then .panic
    else divLoop (Int.tdiv result v) (i + 1) rest
  | _, _, _ => .err (.IllegalArgument ("/") ("All arguments must be numbers"))

/-- The checked-accumulation side condition of the plus, minus and times
loops: starting from acc, every accumulation step over the list stays within
the i64 range (so debug, release and mathematical evaluation agree). -/
def foldInRange (f : Int → Int → Int) : Int → List Int → Bool
  | _, [] => true
  | acc, v :: rest => inI64 (f acc v) && foldInRange f (f acc v) rest

/-- The side condition of the division loop: starting from acc, every step
has a non-zero divisor and is not the overflowing i64 minimum divided
by -1. -/
def divOk : Int → List Int → Bool
  | _, [] => true
  | acc, v :: rest =>
    if v = 0 then false
    else if acc = INT64_MIN ∧ v = -1 then false
    else divOk (Int.tdiv acc v) rest

/-- Accumulation loop of the and operator (src/eval.rs lines 336-346). -/
def andLoop : Bool → List EvalResult → Except EvalError Bool
  | result, [] => .ok result
  | result, .ok (.Boolean v) :: rest => andLoop (result && v) rest
  | _, _ => .error (.IllegalArgument ("and") ("All arguments must be booleans"))

/-- Accumulation loop of the or operator (src/eval.rs lines 359-369). Note
that the source names the construct "and" in this error too (line 364). -/
def orLoop : Bool → List EvalResult → Except EvalError Bool
  | result, [] => .ok result
  | result, .ok (.Boolean v) :: rest => orLoop (result || v) rest
  | _, _ => .error (.IllegalArgument ("and") ("All arguments must be booleans"))

/-- Model of windows(2).all(w[0] == w[1]) over the collected values, used by
the equality operator. -/
def allAdjacentEq : List Expr → Bool
  | a :: b :: rest => beqExpr a b && allAdjacentEq (b :: rest)
  | _ => true

/-- The all-integers check loop in compare_integers (src/comparison.rs). It
runs after the first-error check, so on its error arm the offender is a
non-integer value. -/
def allIntegers : List EvalResult → Bool
  | [] => true
  | .ok (.Integer _) :: rest => allIntegers rest
  | _ => false

/-- The windows(2).all comparison in compare_integers. The none result is its
panic arm for a non-integer window, unreachable after the allIntegers check. -/
def compareWindows (p : Int → Int → Bool) : List Expr → Option Bool
  | a :: b :: rest =>
    match a, b with
    | .Integer x, .Integer y =>
      (compareWindows p (.Integer y :: rest)).map (fun r => p x y && r)
    | _, _ => none
  | _ => some true

/-- Model of the Display implementation in src/expr.rs, the textual rendering
written by print. -/
def render : Expr → String
  | .Integer n => toString n
  | .Boolean b => toString b
  | .If => "-=-"
  | .Op op => "Binary op " ++ op
  | .Keyword kwd => "[" ++ kwd ++ "]"
  | .Symbol sym => sym
  | .List l => "(" ++ String.intercalate (" ") (l.attach.map (fun x => render x.1)) ++ ")"
  | .Lambda _ _ _ => "-=-"
  | .NoOp => "-=-"
decreasing_by
  have := List.sizeOf_lt_of_mem x.2
  simp_wf
  omega

/-- The parameter-name check in evaluate_lambda: every element of the
parameter list must be a Symbol. -/
def paramNames : List Expr → Option (List String)
  | [] => some []
  | .Symbol p :: rest => (paramNames rest).map (fun ps => p :: ps)
  | _ => none

/-- Model of evaluate_lambda (src/eval.rs lines 469-525): pure validation of
the lambda form; nothing is evaluated. The produced Lambda captures the
current environment handle itself (env.clone() on an Rc), here its index. -/
def evaluateLambda (expr : Expr) (env : Nat) : Except EvalError Expr :=
  match expr with
  | .List list =>
    if list.length ≠ 3 then .error (.ArgumentCount ("lambda") 3)
    else
      match list.getD 0 .NoOp with
      | .Keyword ("lambda") =>
        match list.getD 1 .NoOp with
        | .List l =>
          match paramNames l with
          | some params =>
            match list.getD 2 .NoOp with
            | .List contents => .ok (.Lambda params contents env)
            | _ => .error (.IllegalArgument ("lambda") ("Function body must be an evaluable list"))
          | none => .error (.IllegalArgument ("lambda") ("Function arguments must be symbols"))
        | _ => .error (.IllegalArgument ("lambda") ("Function arguments must be a list of symbols"))
      | _ => .error (.IllegalArgument ("lambda") ("Missing lambda"))
  | _ => .error .Internal

/-- Model of evaluate_defun (src/eval.rs lines 437-462): validates the form,
builds the Lambda via evaluate_lambda (which evaluates nothing), and binds it
only on success. It calls no evaluation function, so it needs no fuel. -/
def evaluateDefun (list : List Expr) (env : Nat) (st : State) : Outcome × State :=
  if list.length ≠ 3 then (.err (.ArgumentCount ("defun") 3), st)
  else
    match list.getD 1 .NoOp with
    | .Symbol name =>
      match evaluateLambda (list.getD 2 .NoOp) env with
      | .ok lam => (.ok .NoOp, st.setVar env name lam)
      | .error e => (.err e, st)
    | _ => (.err (.IllegalArgument ("defun") ("Function name must be a symbol")), st)

mutual

/-- Model of evaluate_expr (src/eval.rs lines 65-167). The fuel parameter
bounds the number of nested calls of the Rust evaluation functions (every
call consumes fuel and a host stack frame); exhausting it yields the diverge
outcome, the model of a host stack overflow. The depth parameter is the
explicit recursion-depth counter of the source, checked against
MAX_RECURSION_DEPTH on entry. -/
def evaluateExpr : Nat → Expr → Nat → Nat → State → Outcome × State
  | 0, _, _, _, st => (.diverge, st)
  | fuel+1, expr, env, depth, st =>
    if depth > MAX_RECURSION_DEPTH then
      (.err (.MaximumRecursionDepthReached MAX_RECURSION_DEPTH), st)
    else
      match expr with
      | .List list =>
        match list with
        | [] => (.ok (.List []), st)
        | headOp :: _ =>
          match headOp with
          | .Op _ => evaluateBinaryOp fuel list env st
          | .If =>
            if list.length ≠ 4 then (.err (.ArgumentCount ("if") 4), st)
            else
              match evaluateExpr fuel (list.getD 1 .NoOp) env (depth + 1) st with
              | (.ok (.Boolean true), st1) =>
                evaluateExpr fuel (list.getD 2 .NoOp) env (depth + 1) st1
              | (.ok (.Boolean false), st1) =>
                evaluateExpr fuel (list.getD 3 .NoOp) env (depth + 1) st1
              | (.ok _, st1) =>
                (.err (.IllegalArgument ("if") ("Condition must evaluate to bool")), st1)
              | other => other
          | .Keyword kw =>
            match kw with
            | "def" => evaluateDef fuel list env st
            | "defun" => evaluateDefun list env st
            | "print" => evaluatePrint fuel list env st
            | _ => (.err .Unimplemented, st)
          | .Symbol s =>
            match st.get env s with
            | none => (.err (.UndefinedVariable s), st)
            | some fn =>
              match fn with
              | .Lambda params body fenv =>
                match st.extend fenv with
                | (st1, newEnv) =>
                  match bindParams fuel params 0 list env newEnv depth st1 with
                  | (.done, st2) => evaluateExpr fuel (.List body) newEnv (depth + 1) st2
                  | (.err e, st2) => (.err e, st2)
                  | (.panic, st2) => (.panic, st2)
                  | (.diverge, st2) => (.diverge, st2)
                  | (.overflow, st2) => (.overflow, st2)
              | _ => (.err (.UndefinedFunction s), st)
          | _ =>
            match evalList fuel list env st with
            | (.ok rs, st1) =>
              match firstErr rs with
              | some e => (.err e, st1)
              | none => (.ok (.List (okValues rs)), st1)
            | (.panic, st1) => (.panic, st1)
            | (.diverge, st1) => (.diverge, st1)
            | (.overflow, st1) => (.overflow, st1)
      | .Integer n => (.ok (.Integer n), st)
      | .Boolean b => (.ok (.Boolean b), st)
      | .Symbol v =>
        match st.get env v with
        | some value =>
          match value with
          | .Lambda _ _ _ => (.err .Unimplemented, st)
          | other => (.ok other, st)
        | none => (.err (.UndefinedVariable v), st)
      | .Lambda _ _ _ => (.ok .NoOp, st)
      | _ => (.err .Unimplemented, st)
  termination_by structural fuel _ _ _ _ => fuel

/-- Model of the argument collection args.iter().map(evaluate).collect() used
by the operators and by the generic-list branch: each element is evaluated by
the top-level evaluate, i.e. at depth 0, threading the state; collected errors
do not stop the collection, but a panic or stack exhaustion does. -/
def evalList : Nat → List Expr → Nat → State → ListOutcome × State
  | _, [], _, st => (.ok [], st)
  | 0, _ :: _, _, st => (.diverge, st)
  | fuel+1, e :: rest, env, st =>
    match evaluateExpr fuel e env 0 st with
    | (.ok v, st1) =>
      match evalList fuel rest env st1 with
      | (.ok rs, st2) => (.ok (.ok v :: rs), st2)
      | other => other
    | (.err er, st1) =>
      match evalList fuel rest env st1 with
      | (.ok rs, st2) => (.ok (.error er :: rs), st2)
      | other => other
    | (.panic, st1) => (.panic, st1)
    | (.diverge, st1) => (.diverge, st1)
    | (.overflow, st1) => (.overflow, st1)
  termination_by structural fuel _ _ _ => fuel

/-- Model of the parameter-binding loop of a closure call (src/eval.rs lines
112-116): for the parameter at index i the argument is list[i + 1] — indexing
past the end of the call list is a Rust panic — evaluated in the caller's
environment at depth + 1; the question-mark operator propagates errors; the
value is bound in the extended frame. Arguments beyond the parameter count
are ignored. -/
def bindParams : Nat → List String → Nat → List Expr → Nat → Nat → Nat → State → BindOutcome × State
  | _, [], _, _, _, _, _, st => (.done, st)
  | 0, _ :: _, _, _, _, _, _, st => (.diverge, st)
  | fuel+1, p :: ps, i, list, callerEnv, newEnv, depth, st =>
    match list.get? (i + 1) with
    | none => (.panic, st)
    | some argExpr =>
      match evaluateExpr fuel argExpr callerEnv (depth + 1) st with
      | (.ok v, st1) =>
        bindParams fuel ps (i + 1) list callerEnv newEnv depth (st1.setVar newEnv p v)
      | (.err e, st1) => (.err e, st1)
      | (.panic, st1) => (.panic, st1)
      | (.diverge, st1) => (.diverge, st1)
      | (.overflow, st1) => (.overflow, st1)
  termination_by structural fuel _ _ _ _ _ _ _ => fuel

/-- Model of evaluate_binary_op (src/eval.rs lines 170-390). The unwrap of
list.first() on an empty list would panic, but the dispatcher only passes
lists with an Op head. -/
def evaluateBinaryOp : Nat → List Expr → Nat → State → Outcome × State
  | 0, _, _, st => (.diverge, st)
  | fuel+1, list, env, st =>
    match list with
    | [] => (.panic, st)
    | op :: args =>
      if list.length < 2 then
        (.err (.ArgumentCount (match op with | .Op o => o | _ => "function") 2), st)
      else
        match op with
        | .Op o =>
          match o with
          | "+" =>
            match evalList fuel args env st with
            | (.ok rs, st1) =>
              match firstErr rs with
              | some e => (.err e, st1)
              | none =>
                match plusLoop 0 rs with
                | .ok n => (.ok (.Integer n), st1)
                | .err e => (.err e, st1)
                | .overflow => (.overflow, st1)
            | (.panic, st1) => (.panic, st1)
            | (.diverge, st1) => (.diverge, st1)
            | (.overflow, st1) => (.overflow, st1)
          | "-" =>
            match evalList fuel args env st with
            | (.ok rs, st1) =>
              match firstErr rs with
              | some e => (.err e, st1)
              | none =>
                match subLoop 0 0 rs with
                | .ok n => (.ok (.Integer n), st1)
                | .err e => (.err e, st1)
                | .overflow => (.overflow, st1)
            | (.panic, st1) => (.panic, st1)
            | (.diverge, st1) => (.diverge, st1)
            | (.overflow, st1) => (.overflow, st1)
          | "*" =>
            match evalList fuel args env st with
            | (.ok rs, st1) =>
              match firstErr rs with
              | some e => (.err e, st1)
              | none =>
                match timesLoop 1 rs with
                | .ok n => (.ok (.Integer n), st1)
                | .err e => (.err e, st1)
                | .overflow => (.overflow, st1)
            | (.panic, st1) => (.panic, st1)
            | (.diverge, st1) => (.diverge, st1)
            | (.overflow, st1) => (.overflow, st1)
          | "/" =>
            match evalList fuel args env st with
            | (.ok rs, st1) =>
              match firstErr rs with
              | some e => (.err e, st1)
              | none =>
                match divLoop 0 0 rs with
                | .ok n => (.ok (.Integer n), st1)
                | .err e => (.err e, st1)
                | .panic => (.panic, st1)
            | (.panic, st1) => (.panic, st1)
            | (.diverge, st1) => (.diverge, st1)
            | (.overflow, st1) => (.overflow, st1)
          | "=" =>
            match evalList fuel args env st with
            | (.ok rs, st1) =>
              match firstErr rs with
              | some e => (.err e, st1)
              | none => (.ok (.Boolean (allAdjacentEq (okValues rs))), st1)
            | (.panic, st1) => (.panic, st1)
            | (.diverge, st1) => (.diverge, st1)
            | (.overflow, st1) => (.overflow, st1)
          | "!=" =>
            match evalList fuel args env st with
            | (.ok rs, st1) =>
              match firstErr rs with
              | some e => (.err e, st1)
              | none =>
                match rs with
                | [] => (.ok (.Boolean false), st1)
                | .ok f :: _ =>
                  (.ok (.Boolean (!(okValues rs).all (fun e => beqExpr e f))), st1)
                | .error _ :: _ => (.panic, st1)
            | (.panic, st1) => (.panic, st1)
            | (.diverge, st1) => (.diverge, st1)
            | (.overflow, st1) => (.overflow, st1)
          | "<" => compareInts fuel args env (fun a b => a < b) st
          | "<=" => compareInts fuel args env (fun a b => a ≤ b) st
          | ">" => compareInts fuel args env (fun a b => b < a) st
          | ">=" => compareInts fuel args env (fun a b => b ≤ a) st
          | "and" =>
            match evalList fuel args env st with
            | (.ok rs, st1) =>
              match firstErr rs with
              | some e => (.err e, st1)
              | none =>
                match andLoop true rs with
                | .ok b => (.ok (.Boolean b), st1)
                | .error e => (.err e, st1)
            | (.panic, st1) => (.panic, st1)
            | (.diverge, st1) => (.diverge, st1)
            | (.overflow, st1) => (.overflow, st1)
          | "or" =>
            match evalList fuel args env st with
            | (.ok rs, st1) =>
              match firstErr rs with
              | some e => (.err e, st1)
              | none =>
                match orLoop false rs with
                | .ok b => (.ok (.Boolean b), st1)
                | .error e => (.err e, st1)
            | (.panic, st1) => (.panic, st1)
            | (.diverge, st1) => (.diverge, st1)
            | (.overflow, st1) => (.overflow, st1)
          | "not" =>
            if list.length ≠ 2 then (.err (.ArgumentCount ("not") 1), st)
            else
              match list.getD 1 .NoOp with
              | .Boolean arg => (.ok (.Boolean (!arg)), st)
              | _ => (.err (.IllegalArgument ("not") ("Argument must be a boolean")), st)
          | _ => (.err .Unimplemented, st)
        | _ => (.err .Unreachable, st)
  termination_by structural fuel _ _ _ => fuel

/-- Model of compare_integers (src/comparison.rs): evaluate all arguments,
report the first collected error, require every value to be an integer, then
require the predicate on every adjacent pair. The panic arm corresponds to
the unreachable panic in the source. -/
def compareInts : Nat → List Expr → Nat → (Int → Int → Bool) → State → Outcome × State
  | 0, _, _, _, st => (.diverge, st)
  | fuel+1, args, env, p, st =>
    match evalList fuel args env st with
    | (.ok rs, st1) =>
      match firstErr rs with
      | some e => (.err e, st1)
      | none =>
        if allIntegers rs then
          match compareWindows p (okValues rs) with
          | some b => (.ok (.Boolean b), st1)
          | none => (.panic, st1)
        else (.err (.IllegalArgument ("compare") ("All arguments must be numbers")), st1)
    | (.panic, st1) => (.panic, st1)
    | (.diverge, st1) => (.diverge, st1)
    | (.overflow, st1) => (.overflow, st1)
  termination_by structural fuel _ _ _ _ => fuel

/-- Model of evaluate_def (src/eval.rs lines 401-426). Note that the value
expression is evaluated with depth 0, not at the enclosing depth. The binding
is made only after a successful evaluation. -/
def evaluateDef : Nat → List Expr → Nat → State → Outcome × State
  | 0, _, _, st => (.diverge, st)
  | fuel+1, list, env, st =>
    if list.length ≠ 3 then (.err (.ArgumentCount ("def") 3), st)
    else
      match list.getD 1 .NoOp with
      | .Symbol name =>
        match evaluateExpr fuel (list.getD 2 .NoOp) env 0 st with
        | (.ok value, st1) => (.ok .NoOp, st1.setVar env name value)
        | other => other
      | _ => (.err (.IllegalArgument ("def") ("Variable name must be a symbol")), st)
  termination_by structural fuel _ _ _ => fuel

/-- Model of evaluate_print (src/eval.rs lines 532-546): evaluates the operand
at depth 0, appends its rendering to the output sink, and returns the value. -/
def evaluatePrint : Nat → List Expr → Nat → State → Outcome × State
  | 0, _, _, st => (.diverge, st)
  | fuel+1, list, env, st =>
    if list.length ≠ 2 then (.err (.ArgumentCount ("print") 1), st)
    else
      match evaluateExpr fuel (list.getD 1 .NoOp) env 0 st with
      | (.ok v, st1) => (.ok v, { st1 with out := st1.out ++ [render v] })
      | other => other
  termination_by structural fuel _ _ _ => fuel

end

/-- Model of the top-level evaluate (src/eval.rs lines 60-62): evaluation
starts at depth 0. -/
def evaluate (fuel : Nat) (expr : Expr) (env : Nat) (st : State) : Outcome × State :=
  evaluateExpr fuel expr env 0 st

/-- The fresh root environment created by the driver: a single empty frame
with no parent, empty output. -/
def initState : State := ⟨[⟨[], none⟩], []⟩

/-- Model of the driver loop (src/repl.rs): each top-level expression is
passed to evaluate against the persistent root environment, and evaluation
continues with the next expression whether or not this one reported an
error. -/
def runProgram (fuel : Nat) : List Expr → Nat → State → List Outcome × State
  | [], _, st => ([], st)
  | e :: rest, env, st =>
    match evaluate fuel e env st with
    | (r, st1) =>
      match runProgram fuel rest env st1 with
      | (rs, st2) => (r :: rs, st2)

/-! Small stepping lemmas about the evaluator, used to settle the claims. -/

theorem evaluateExpr_integer (fuel : Nat) (h : 0 < fuel) (n : Int) (env : Nat) (st : State) :
    evaluateExpr fuel (.Integer n) env 0 st = (.ok (.Integer n), st) := by
  obtain ⟨g, rfl⟩ : ∃ g, fuel = g + 1 := ⟨fuel - 1, by omega⟩
  simp [evaluateExpr, MAX_RECURSION_DEPTH]

theorem evaluateExpr_boolean (fuel : Nat) (h : 0 < fuel) (b : Bool) (env : Nat) (st : State) :
    evaluateExpr fuel (.Boolean b) env 0 st = (.ok (.Boolean b), st) := by
  obtain ⟨g, rfl⟩ : ∃ g, fuel = g + 1 := ⟨fuel - 1, by omega⟩
  simp [evaluateExpr, MAX_RECURSION_DEPTH]

theorem evaluateExpr_symbol_unbound (fuel : Nat) (h : 0 < fuel) (v : String) (env : Nat)
    (st : State) (hv : st.get env v = none) :
    evaluateExpr fuel (.Symbol v) env 0 st = (.err (.UndefinedVariable v), st) := by
  obtain ⟨g, rfl⟩ : ∃ g, fuel = g + 1 := ⟨fuel - 1, by omega⟩
  simp [evaluateExpr, MAX_RECURSION_DEPTH, hv]

theorem evalList_int (ns : List Int) :
    ∀ fuel env st, ns.length < fuel →
      evalList fuel (ns.map Expr.Integer) env st
        = (.ok (ns.map fun n => Except.ok (Expr.Integer n)), st) := by
  induction ns with
  | nil => intro fuel env st _; simp [evalList]
  | cons a tl ih =>
    intro fuel env st h
    obtain ⟨g, rfl⟩ : ∃ g, fuel = g + 1 := ⟨fuel - 1, by omega⟩
    have hg : tl.length < g := by simpa using h
    simp [evalList, evaluateExpr_integer g (by omega) a env st, ih g env st hg]

theorem firstErr_map_ok (ns : List Int) :
    firstErr (ns.map fun n => Except.ok (Expr.Integer n)) = none := by
  induction ns with
  | nil => simp [firstErr]
  | cons a tl ih => simp [firstErr, ih]

theorem okValues_map_ok (ns : List Int) :
    okValues (ns.map fun n => Except.ok (Expr.Integer n)) = ns.map Expr.Integer := by
  induction ns with
  | nil => simp [okValues]
  | cons a tl ih => simp [okValues, ih]

theorem plusLoop_map (ns : List Int) :
    ∀ acc, foldInRange (· + ·) acc ns = true →
      plusLoop acc (ns.map fun n => Except.ok (Expr.Integer n))
        = .ok (ns.foldl (· + ·) acc) := by
  induction ns with
  | nil => intro acc _; simp [plusLoop]
  | cons a tl ih =>
    intro acc h
    simp only [foldInRange, Bool.and_eq_true] at h
    simp [plusLoop, h.1, ih _ h.2]

theorem timesLoop_map (ns : List Int) :
    ∀ acc, foldInRange (· * ·) acc ns = true →
      timesLoop acc (ns.map fun n => Except.ok (Expr.Integer n))
        = .ok (ns.foldl (· * ·) acc) := by
  induction ns with
  | nil => intro acc _; simp [timesLoop]
  | cons a tl ih =>
    intro acc h
    simp only [foldInRange, Bool.and_eq_true] at h
    simp [timesLoop, h.1, ih _ h.2]

theorem subLoop_map (ns : List Int) :
    ∀ acc i, foldInRange (· - ·) acc ns = true →
      subLoop acc (i + 1) (ns.map fun n => Except.ok (Expr.Integer n))
        = .ok (ns.foldl (· - ·) acc) := by
  induction ns with
  | nil => intro acc i _; simp [subLoop]
  | cons a tl ih =>
    intro acc i h
    simp only [foldInRange, Bool.and_eq_true] at h
    simp [subLoop, h.1, ih _ _ h.2]

theorem divLoop_map (ns : List Int) :
    ∀ acc i, divOk acc ns = true →
      divLoop acc (i + 1) (ns.map fun n => Except.ok (Expr.Integer n))
        = .ok (ns.foldl Int.tdiv acc) := by
  induction ns with
  | nil => intro acc i _; simp [divLoop]
  | cons a tl ih =>
    intro acc i h
    simp only [divOk] at h
    by_cases ha : a = 0
    · simp [ha] at h
    · by_cases hm : acc = INT64_MIN ∧ a = -1
      · simp [ha, hm] at h
      · rw [if_neg ha, if_neg hm] at h
        simp [divLoop, ha, hm, ih _ (i + 1) h]

theorem evalList_bool_int (b : Bool) (ms : List Int) (g env : Nat) (st : State)
    (h : ms.length < g) :
    evalList (g+1) (.Boolean b :: ms.map Expr.Integer) env st
      = (.ok (.ok (.Boolean b) :: ms.map fun n => Except.ok (Expr.Integer n)), st) := by
  simp [evalList, evaluateExpr_boolean g (by omega) b env st, evalList_int ms g env st h]

theorem evalList_unbound_int (u : String) (ms : List Int) (g env : Nat) (st : State)
    (h : ms.length < g) (hv : st.get env u = none) :
    evalList (g+1) (.Symbol u :: ms.map Expr.Integer) env st
      = (.ok (.error (.UndefinedVariable u) :: ms.map fun n => Except.ok (Expr.Integer n)), st) := by
  simp [evalList, evaluateExpr_symbol_unbound g (by omega) u env st hv,
    evalList_int ms g env st h]

theorem evalList_int_bool_int (pre : List Int) :
    ∀ fuel (b : Bool) (post : List Int) env st, pre.length + post.length + 1 < fuel →
      evalList fuel (pre.map Expr.Integer ++ .Boolean b :: post.map Expr.Integer) env st
        = (.ok ((pre.map fun n => Except.ok (Expr.Integer n))
            ++ .ok (.Boolean b) :: (post.map fun n => Except.ok (Expr.Integer n))), st) := by
  induction pre with
  | nil =>
    intro fuel b post env st h
    obtain ⟨g, rfl⟩ : ∃ g, fuel = g + 1 := ⟨fuel - 1, by omega⟩
    simp only [List.map_nil, List.nil_append]
    simp [evalList, evaluateExpr_boolean g (by omega) b env st,
      evalList_int post g env st (by simpa using h)]
  | cons a tl ih =>
    intro fuel b post env st h
    obtain ⟨g, rfl⟩ : ∃ g, fuel = g + 1 := ⟨fuel - 1, by omega⟩
    simp only [List.map_cons, List.cons_append]
    simp [evalList, evaluateExpr_integer g (by simp at h; omega) a env st,
      ih g b post env st (by simp at h; omega)]

theorem firstErr_append_ok (ns : List Int) (rs : List EvalResult) :
    firstErr ((ns.map fun n => Except.ok (Expr.Integer n)) ++ rs) = firstErr rs := by
  induction ns with
  | nil => simp
  | cons a tl ih => simp [firstErr, ih]

theorem plusLoop_nonint (pre : List Int) (b : Bool) (rest : List EvalResult) :
    ∀ acc, foldInRange (· + ·) acc pre = true →
      plusLoop acc ((pre.map fun n => Except.ok (Expr.Integer n))
          ++ .ok (.Boolean b) :: rest)
        = .err (.IllegalArgument ("+") ("All arguments must be numbers")) := by
  induction pre with
  | nil => intro acc _; simp [plusLoop]
  | cons a tl ih =>
    intro acc h
    simp only [foldInRange, Bool.and_eq_true] at h
    simp [plusLoop, h.1, ih _ h.2]

/-- Claim C6 counterexample: the unqualified fold conclusions fail at
representable inputs, because the source computes with i64 machine
arithmetic. Adding 1 to the largest i64 leaves the i64 range, so the program
does not return the mathematical sum (a debug build panics at the += and a
release build wraps to the smallest i64; the model records the
build-divergent execution as the overflow outcome, which in particular is
not the ok outcome carrying the mathematical sum). And dividing the smallest
i64 by -1 panics in every build profile even though no divisor is 0, against
the claimed truncating left-fold quotient. -/
theorem C6_counterexample_arith_overflow :
    evaluate 10 (.List [.Op ("+"), .Integer 9223372036854775807, .Integer 1]) 0 initState
      = (.overflow, initState)
    ∧ Outcome.overflow ≠ .ok (.Integer 9223372036854775808)
    ∧ evaluate 10 (.List [.Op ("/"), .Integer (-9223372036854775808), .Integer (-1)])
        0 initState
      = (.panic, initState) := by
  exact ⟨by rfl, by simp, by rfl⟩

/-- Claim C6 as amended: applications of the four arithmetic operators over
i64 machine arithmetic. A singleton operator list (fewer than 2 total
elements) is an argument-count error; on all-integer arguments whose checked
accumulation stays within the i64 range, plus folds with identity 0, times
folds with identity 1, and minus and division left-fold from the first
evaluated argument (division truncating toward zero, additionally requiring
every step to have a non-zero divisor and not be the overflowing smallest
i64 divided by -1); a non-integer argument yields an illegal-argument error
for the operator, and an evaluation error from an argument (an unbound
variable here) aborts any of the four operators with that error; in every
failing case the returned state is the state after argument evaluation,
never a partial arithmetic result. -/
theorem C6_amended_arith_fold :
    (∀ (s : String) (f env depth : Nat) (st : State), depth ≤ 1024 →
      evaluateExpr (f+2) (.List [.Op s]) env depth st
        = (.err (.ArgumentCount s 2), st))
    ∧ (∀ (ns : List Int) (f env depth : Nat) (st : State),
        ns ≠ [] → depth ≤ 1024 → ns.length < f → foldInRange (· + ·) 0 ns = true →
      evaluateExpr (f+2) (.List (.Op ("+") :: ns.map .Integer)) env depth st
        = (.ok (.Integer (ns.foldl (· + ·) 0)), st))
    ∧ (∀ (ns : List Int) (f env depth : Nat) (st : State),
        ns ≠ [] → depth ≤ 1024 → ns.length < f → foldInRange (· * ·) 1 ns = true →
      evaluateExpr (f+2) (.List (.Op ("*") :: ns.map .Integer)) env depth st
        = (.ok (.Integer (ns.foldl (· * ·) 1)), st))
    ∧ (∀ (n : Int) (ns : List Int) (f env depth : Nat) (st : State),
        depth ≤ 1024 → ns.length + 1 < f → foldInRange (· - ·) n ns = true →
      evaluateExpr (f+2) (.List (.Op ("-") :: (n :: ns).map .Integer)) env depth st
        = (.ok (.Integer (ns.foldl (· - ·) n)), st))
    ∧ (∀ (n : Int) (ns : List Int) (f env depth : Nat) (st : State),
        depth ≤ 1024 → ns.length + 1 < f → divOk n ns = true →
      evaluateExpr (f+2) (.List (.Op ("/") :: (n :: ns).map .Integer)) env depth st
        = (.ok (.Integer (ns.foldl Int.tdiv n)), st))
    ∧ (∀ (b : Bool) (ms : List Int) (f env depth : Nat) (st : State),
        depth ≤ 1024 → ms.length + 1 < f →
      evaluateExpr (f+2) (.List (.Op ("+") :: .Boolean b :: ms.map .Integer)) env depth st
        = (.err (.IllegalArgument ("+") ("All arguments must be numbers")), st))
    ∧ (∀ (b : Bool) (ms : List Int) (f env depth : Nat) (st : State),
        depth ≤ 1024 → ms.length + 1 < f →
      evaluateExpr (f+2) (.List (.Op ("-") :: .Boolean b :: ms.map .Integer)) env depth st
        = (.err (.IllegalArgument ("-") ("All arguments must be numbers")), st))
    ∧ (∀ (b : Bool) (ms : List Int) (f env depth : Nat) (st : State),
        depth ≤ 1024 → ms.length + 1 < f →
      evaluateExpr (f+2) (.List (.Op ("*") :: .Boolean b :: ms.map .Integer)) env depth st
        = (.err (.IllegalArgument ("*") ("All arguments must be numbers")), st))
    ∧ (∀ (b : Bool) (ms : List Int) (f env depth : Nat) (st : State),
        depth ≤ 1024 → ms.length + 1 < f →
      evaluateExpr (f+2) (.List (.Op ("/") :: .Boolean b :: ms.map .Integer)) env depth st
        = (.err (.IllegalArgument ("/") ("All arguments must be numbers")), st))
    ∧ (∀ (u : String) (ms : List Int) (f env depth : Nat) (st : State),
        depth ≤ 1024 → ms.length + 1 < f → st.get env u = none →
      evaluateExpr (f+2) (.List (.Op ("+") :: .Symbol u :: ms.map .Integer)) env depth st
        = (.err (.UndefinedVariable u), st))
    ∧ (∀ (u : String) (ms : List Int) (f env depth : Nat) (st : State),
        depth ≤ 1024 → ms.length + 1 < f → st.get env u = none →
      evaluateExpr (f+2) (.List (.Op ("-") :: .Symbol u :: ms.map .Integer)) env depth st
        = (.err (.UndefinedVariable u), st))
    ∧ (∀ (u : String) (ms : List Int) (f env depth : Nat) (st : State),
        depth ≤ 1024 → ms.length + 1 < f → st.get env u = none →
      evaluateExpr (f+2) (.List (.Op ("*") :: .Symbol u :: ms.map .Integer)) env depth st
        = (.err (.UndefinedVariable u), st))
    ∧ (∀ (u : String) (ms : List Int) (f env depth : Nat) (st : State),
        depth ≤ 1024 → ms.length + 1 < f → st.get env u = none →
      evaluateExpr (f+2) (.List (.Op ("/") :: .Symbol u :: ms.map .Integer)) env depth st
        = (.err (.UndefinedVariable u), st))
    ∧ (∀ (pre post : List Int) (b : Bool) (f env depth : Nat) (st : State),
        depth ≤ 1024 → pre.length + post.length + 1 < f →
        foldInRange (· + ·) 0 pre = true →
      evaluateExpr (f+2) (.List (.Op ("+") :: pre.map .Integer
          ++ .Boolean b :: post.map .Integer)) env depth st
        = (.err (.IllegalArgument ("+") ("All arguments must be numbers")), st)) := by
  refine ⟨?_, ?_, ?_, ?_, ?_, ?_, ?_, ?_, ?_, ?_, ?_, ?_, ?_, ?_⟩
  · intro s f env depth st hd
    simp only [evaluateExpr]
    rw [if_neg (by simpa [MAX_RECURSION_DEPTH] using Nat.not_lt.mpr hd)]
    simp [evaluateBinaryOp]
  · intro ns f env depth st hne hd hf hr
    have hlen : ¬ ((Expr.Op ("+") :: ns.map Expr.Integer).length < 2) := by
      have : ns.length ≠ 0 := by simpa using hne
      simp; omega
    simp only [evaluateExpr]
    rw [if_neg (by simpa [MAX_RECURSION_DEPTH] using Nat.not_lt.mpr hd)]
    simp only [evaluateBinaryOp, hlen, if_false]
    rw [evalList_int ns f env st hf]
    simp [firstErr_map_ok, plusLoop_map ns 0 hr]
  · intro ns f env depth st hne hd hf hr
    have hlen : ¬ ((Expr.Op ("*") :: ns.map Expr.Integer).length < 2) := by
      have : ns.length ≠ 0 := by simpa using hne
      simp; omega
    simp only [evaluateExpr]
    rw [if_neg (by simpa [MAX_RECURSION_DEPTH] using Nat.not_lt.mpr hd)]
    simp only [evaluateBinaryOp, hlen, if_false]
    rw [evalList_int ns f env st hf]
    simp [firstErr_map_ok, timesLoop_map ns 1 hr]
  · intro n ns f env depth st hd hf hr
    have hlen : ¬ ((Expr.Op ("-") :: (n :: ns).map Expr.Integer).length < 2) := by
      simp
    simp only [evaluateExpr]
    rw [if_neg (by simpa [MAX_RECURSION_DEPTH] using Nat.not_lt.mpr hd)]
    simp only [evaluateBinaryOp, hlen, if_false]
    rw [evalList_int (n :: ns) f env st (by simpa using hf)]
    simp [firstErr, firstErr_map_ok, subLoop, subLoop_map ns n 0 hr]
  · intro n ns f env depth st hd hf hz
    have hlen : ¬ ((Expr.Op ("/") :: (n :: ns).map Expr.Integer).length < 2) := by
      simp
    simp only [evaluateExpr]
    rw [if_neg (by simpa [MAX_RECURSION_DEPTH] using Nat.not_lt.mpr hd)]
    simp only [evaluateBinaryOp, hlen, if_false]
    rw [evalList_int (n :: ns) f env st (by simpa using hf)]
    simp [firstErr, firstErr_map_ok, divLoop, divLoop_map ns n 0 hz]
  · intro b ms f env depth st hd hf
    obtain ⟨g, rfl⟩ : ∃ g, f = g + 1 := ⟨f - 1, by omega⟩
    simp only [evaluateExpr]
    rw [if_neg (by simpa [MAX_RECURSION_DEPTH] using Nat.not_lt.mpr hd)]
    simp only [evaluateBinaryOp]
    rw [if_neg (by simp)]
    rw [evalList_bool_int b ms g env st (by omega)]
    simp [firstErr, firstErr_map_ok, plusLoop]
  · intro b ms f env depth st hd hf
    obtain ⟨g, rfl⟩ : ∃ g, f = g + 1 := ⟨f - 1, by omega⟩
    simp only [evaluateExpr]
    rw [if_neg (by simpa [MAX_RECURSION_DEPTH] using Nat.not_lt.mpr hd)]
    simp only [evaluateBinaryOp]
    rw [if_neg (by simp)]
    rw [evalList_bool_int b ms g env st (by omega)]
    simp [firstErr, firstErr_map_ok, subLoop]
  · intro b ms f env depth st hd hf
    obtain ⟨g, rfl⟩ : ∃ g, f = g + 1 := ⟨f - 1, by omega⟩
    simp only [evaluateExpr]
    rw [if_neg (by simpa [MAX_RECURSION_DEPTH] using Nat.not_lt.mpr hd)]
    simp only [evaluateBinaryOp]
    rw [if_neg (by simp)]
    rw [evalList_bool_int b ms g env st (by omega)]
    simp [firstErr, firstErr_map_ok, timesLoop]
  · intro b ms f env depth st hd hf
    obtain ⟨g, rfl⟩ : ∃ g, f = g + 1 := ⟨f - 1, by omega⟩
    simp only [evaluateExpr]
    rw [if_neg (by simpa [MAX_RECURSION_DEPTH] using Nat.not_lt.mpr hd)]
    simp only [evaluateBinaryOp]
    rw [if_neg (by simp)]
    rw [evalList_bool_int b ms g env st (by omega)]
    simp [firstErr, firstErr_map_ok, divLoop]
  · intro u ms f env depth st hd hf hv
    obtain ⟨g, rfl⟩ : ∃ g, f = g + 1 := ⟨f - 1, by omega⟩
    simp only [evaluateExpr]
    rw [if_neg (by simpa [MAX_RECURSION_DEPTH] using Nat.not_lt.mpr hd)]
    simp only [evaluateBinaryOp]
    rw [if_neg (by simp)]
    rw [evalList_unbound_int u ms g env st (by omega) hv]
    simp [firstErr]
  · intro u ms f env depth st hd hf hv
    obtain ⟨g, rfl⟩ : ∃ g, f = g + 1 := ⟨f - 1, by omega⟩
    simp only [evaluateExpr]
    rw [if_neg (by simpa [MAX_RECURSION_DEPTH] using Nat.not_lt.mpr hd)]
    simp only [evaluateBinaryOp]
    rw [if_neg (by simp)]
    rw [evalList_unbound_int u ms g env st (by omega) hv]
    simp [firstErr]
  · intro u ms f env depth st hd hf hv
    obtain ⟨g, rfl⟩ : ∃ g, f = g + 1 := ⟨f - 1, by omega⟩
    simp only [evaluateExpr]
    rw [if_neg (by simpa [MAX_RECURSION_DEPTH] using Nat.not_lt.mpr hd)]
    simp only [evaluateBinaryOp]
    rw [if_neg (by simp)]
    rw [evalList_unbound_int u ms g env st (by omega) hv]
    simp [firstErr]
  · intro u ms f env depth st hd hf hv
    obtain ⟨g, rfl⟩ : ∃ g, f = g + 1 := ⟨f - 1, by omega⟩
    simp only [evaluateExpr]
    rw [if_neg (by simpa [MAX_RECURSION_DEPTH] using Nat.not_lt.mpr hd)]
    simp only [evaluateBinaryOp]
    rw [if_neg (by simp)]
    rw [evalList_unbound_int u ms g env st (by omega) hv]
    simp [firstErr]
  · intro pre post b f env depth st hd hf hr
    have hlen : ¬ ((Expr.Op ("+") :: (pre.map Expr.Integer
        ++ Expr.Boolean b :: post.map Expr.Integer)).length < 2) := by
      simp only [List.length_cons, List.length_append, List.length_map]
      omega
    simp only [List.cons_append]
    simp only [evaluateExpr]
    rw [if_neg (by simpa [MAX_RECURSION_DEPTH] using Nat.not_lt.mpr hd)]
    simp only [evaluateBinaryOp, hlen, if_false]
    rw [evalList_int_bool_int pre f b post env st hf]
    simp [firstErr_append_ok, firstErr, firstErr_map_ok, plusLoop_nonint pre b _ 0 hr]

/-- Witness for the amended C6: each part of the theorem applied at concrete
inputs whose checked accumulations stay within the i64 range. -/
theorem C6_amended_arith_fold_witness :
    evaluateExpr 3 (.List [.Op ("%")]) 0 0 initState
      = (.err (.ArgumentCount ("%") 2), initState)
    ∧ evaluateExpr 6 (.List [.Op ("+"), .Integer 1, .Integer 2, .Integer 3]) 0 0 initState
      = (.ok (.Integer 6), initState)
    ∧ evaluateExpr 5 (.List [.Op ("*"), .Integer 4, .Integer 5]) 0 0 initState
      = (.ok (.Integer 20), initState)
    ∧ evaluateExpr 6 (.List [.Op ("-"), .Integer 10, .Integer 2, .Integer 3]) 0 0 initState
      = (.ok (.Integer 5), initState)
    ∧ evaluateExpr 6 (.List [.Op ("/"), .Integer 100, .Integer 10, .Integer 2]) 0 0 initState
      = (.ok (.Integer 5), initState)
    ∧ evaluateExpr 5 (.List [.Op ("+"), .Boolean true, .Integer 1]) 0 0 initState
      = (.err (.IllegalArgument ("+") ("All arguments must be numbers")), initState)
    ∧ evaluateExpr 5 (.List [.Op ("-"), .Boolean false, .Integer 1]) 0 0 initState
      = (.err (.IllegalArgument ("-") ("All arguments must be numbers")), initState)
    ∧ evaluateExpr 5 (.List [.Op ("*"), .Boolean true, .Integer 1]) 0 0 initState
      = (.err (.IllegalArgument ("*") ("All arguments must be numbers")), initState)
    ∧ evaluateExpr 5 (.List [.Op ("/"), .Boolean true, .Integer 1]) 0 0 initState
      = (.err (.IllegalArgument ("/") ("All arguments must be numbers")), initState)
    ∧ evaluateExpr 5 (.List [.Op ("+"), .Symbol ("u"), .Integer 1]) 0 0 initState
      = (.err (.UndefinedVariable ("u")), initState)
    ∧ evaluateExpr 5 (.List [.Op ("-"), .Symbol ("u"), .Integer 1]) 0 0 initState
      = (.err (.UndefinedVariable ("u")), initState)
    ∧ evaluateExpr 5 (.List [.Op ("*"), .Symbol ("u"), .Integer 1]) 0 0 initState
      = (.err (.UndefinedVariable ("u")), initState)
    ∧ evaluateExpr 5 (.List [.Op ("/"), .Symbol ("u"), .Integer 1]) 0 0 initState
      = (.err (.UndefinedVariable ("u")), initState)
    ∧ evaluateExpr 6 (.List [.Op ("+"), .Integer 1, .Boolean true, .Integer 2]) 0 0 initState
      = (.err (.IllegalArgument ("+") ("All arguments must be numbers")), initState) := by
  obtain ⟨h1, h2, h3, h4, h5, h6, h7, h8, h9, h10, h11, h12, h13, h14⟩ :=
    C6_amended_arith_fold
  refine ⟨h1 ("%") 1 0 0 initState (by omega),
    ?_, ?_, ?_, ?_, ?_, ?_, ?_, ?_, ?_, ?_, ?_, ?_, ?_⟩
  · simpa using h2 [1, 2, 3] 4 0 0 initState (by simp) (by omega) (by simp) (by rfl)
  · simpa using h3 [4, 5] 3 0 0 initState (by simp) (by omega) (by simp) (by rfl)
  · simpa using h4 10 [2, 3] 4 0 0 initState (by omega) (by simp) (by rfl)
  · simpa using h5 100 [10, 2] 4 0 0 initState (by omega) (by simp) (by rfl)
  · simpa using h6 true [1] 3 0 0 initState (by omega) (by simp)
  · simpa using h7 false [1] 3 0 0 initState (by omega) (by simp)
  · simpa using h8 true [1] 3 0 0 initState (by omega) (by simp)
  · simpa using h9 true [1] 3 0 0 initState (by omega) (by simp)
  · simpa using h10 ("u") [1] 3 0 0 initState (by omega) (by simp) (by rfl)
  · simpa using h11 ("u") [1] 3 0 0 initState (by omega) (by simp) (by rfl)
  · simpa using h12 ("u") [1] 3 0 0 initState (by omega) (by simp) (by rfl)
  · simpa using h13 ("u") [1] 3 0 0 initState (by omega) (by simp) (by rfl)
  · simpa using h14 [1] [2] true 4 0 0 initState (by omega) (by simp) (by rfl)

/-- Claim C9: the not operator requires exactly 2 list elements, failing with
an argument-count error otherwise (one element hits the generic fewer-than-2
check with expected count 2, three or more elements the dedicated check with
expected count 1, covering the example of not applied to true and false); its
single argument is used as-is, with no evaluation step: a literal Boolean is
negated, and any other expression - even one that would evaluate to a
Boolean - is an illegal-argument error. -/
theorem C9_not_literal_negation :
    (∀ (b : Bool) (f env depth : Nat) (st : State), depth ≤ 1024 →
      evaluateExpr (f+2) (.List [.Op ("not"), .Boolean b]) env depth st
        = (.ok (.Boolean (!b)), st))
    ∧ (∀ (e : Expr) (f env depth : Nat) (st : State), depth ≤ 1024 →
        (∀ b, e ≠ .Boolean b) →
      evaluateExpr (f+2) (.List [.Op ("not"), e]) env depth st
        = (.err (.IllegalArgument ("not") ("Argument must be a boolean")), st))
    ∧ (∀ (a1 a2 : Expr) (rest : List Expr) (f env depth : Nat) (st : State), depth ≤ 1024 →
      evaluateExpr (f+2) (.List (.Op ("not") :: a1 :: a2 :: rest)) env depth st
        = (.err (.ArgumentCount ("not") 1), st))
    ∧ (∀ (f env depth : Nat) (st : State), depth ≤ 1024 →
      evaluateExpr (f+2) (.List [.Op ("not")]) env depth st
        = (.err (.ArgumentCount ("not") 2), st)) := by
  refine ⟨?_, ?_, ?_, ?_⟩
  · intro b f env depth st hd
    simp only [evaluateExpr]
    rw [if_neg (by simpa [MAX_RECURSION_DEPTH] using Nat.not_lt.mpr hd)]
    simp [evaluateBinaryOp]
  · intro e f env depth st hd he
    simp only [evaluateExpr]
    rw [if_neg (by simpa [MAX_RECURSION_DEPTH] using Nat.not_lt.mpr hd)]
    simp only [evaluateBinaryOp]
    rw [if_neg (by simp)]
    rcases e with _ | b | _ | _ | _ | _ | _ | _ | _ <;>
      first
      | exact absurd rfl (he b)
      | simp
  · intro a1 a2 rest f env depth st hd
    simp only [evaluateExpr]
    rw [if_neg (by simpa [MAX_RECURSION_DEPTH] using Nat.not_lt.mpr hd)]
    simp only [evaluateBinaryOp]
    rw [if_neg (by simp)]
    rw [if_pos (by simp)]
  · intro f env depth st hd
    simp only [evaluateExpr]
    rw [if_neg (by simpa [MAX_RECURSION_DEPTH] using Nat.not_lt.mpr hd)]
    simp [evaluateBinaryOp]

/-- Witness for C9: the theorem applied at concrete inputs, among them the
malformed arity example from the specification and a symbol bound to a
Boolean in the environment, which is still rejected because not never
evaluates its argument. -/
theorem C9_not_literal_negation_witness :
    evaluateExpr 4 (.List [.Op ("not"), .Boolean true]) 0 0 initState
      = (.ok (.Boolean false), initState)
    ∧ evaluateExpr 4 (.List [.Op ("not"), .Symbol ("x")]) 0 0
        ⟨[⟨[(("x"), .Boolean true)], none⟩], []⟩
      = (.err (.IllegalArgument ("not") ("Argument must be a boolean")),
          ⟨[⟨[(("x"), .Boolean true)], none⟩], []⟩)
    ∧ evaluateExpr 4 (.List [.Op ("not"), .Boolean true, .Boolean false]) 0 0 initState
      = (.err (.ArgumentCount ("not") 1), initState)
    ∧ evaluateExpr 4 (.List [.Op ("not")]) 0 0 initState
      = (.err (.ArgumentCount ("not") 2), initState) := by
  obtain ⟨h1, h2, h3, h4⟩ := C9_not_literal_negation
  exact ⟨h1 true 2 0 0 initState (by omega),
    h2 (.Symbol ("x")) 2 0 0 ⟨[⟨[(("x"), .Boolean true)], none⟩], []⟩ (by omega)
      (fun b h => Expr.noConfusion h),
    h3 (.Boolean true) (.Boolean false) [] 2 0 0 initState (by omega),
    h4 2 0 0 initState (by omega)⟩

/-- Claim C5: a list headed by the If marker that does not have exactly 4
elements is an argument-count error; otherwise the condition is evaluated
first, must produce a Boolean (else an illegal-argument error, and a
condition error propagates unchanged), and exactly one branch is then
evaluated in the state left by the condition: the result of the whole form is
exactly the evaluation of the selected branch, so the unselected branch is
never evaluated; concretely, an if with a print in the unselected branch
leaves the output sink untouched, while a print in the selected branch
fires. -/
theorem C5_if_shortcircuit :
    (∀ (rest : List Expr) (f env depth : Nat) (st : State), depth ≤ 1024 →
        (Expr.If :: rest).length ≠ 4 →
      evaluateExpr (f+1) (.List (.If :: rest)) env depth st
        = (.err (.ArgumentCount ("if") 4), st))
    ∧ (∀ (c t e : Expr) (f env depth : Nat) (st st' : State), depth ≤ 1024 →
        evaluateExpr f c env (depth + 1) st = (.ok (.Boolean true), st') →
      evaluateExpr (f+1) (.List [.If, c, t, e]) env depth st
        = evaluateExpr f t env (depth + 1) st')
    ∧ (∀ (c t e : Expr) (f env depth : Nat) (st st' : State), depth ≤ 1024 →
        evaluateExpr f c env (depth + 1) st = (.ok (.Boolean false), st') →
      evaluateExpr (f+1) (.List [.If, c, t, e]) env depth st
        = evaluateExpr f e env (depth + 1) st')
    ∧ (∀ (c t e v : Expr) (f env depth : Nat) (st st' : State), depth ≤ 1024 →
        evaluateExpr f c env (depth + 1) st = (.ok v, st') → (∀ b, v ≠ .Boolean b) →
      evaluateExpr (f+1) (.List [.If, c, t, e]) env depth st
        = (.err (.IllegalArgument ("if") ("Condition must evaluate to bool")), st'))
    ∧ (∀ (c t e : Expr) (er : EvalError) (f env depth : Nat) (st st' : State), depth ≤ 1024 →
        evaluateExpr f c env (depth + 1) st = (.err er, st') →
      evaluateExpr (f+1) (.List [.If, c, t, e]) env depth st = (.err er, st'))
    ∧ evaluate 10 (.List [.If, .Boolean true, .Integer 1,
        .List [.Keyword ("print"), .Integer 2]]) 0 initState
      = (.ok (.Integer 1), initState)
    ∧ evaluate 10 (.List [.If, .Boolean false, .List [.Keyword ("print"), .Integer 1],
        .List [.Keyword ("print"), .Integer 2]]) 0 initState
      = (.ok (.Integer 2), ⟨[⟨[], none⟩], [render (.Integer 2)]⟩)
    ∧ render (.Integer 2) = ("2") := by
  refine ⟨?_, ?_, ?_, ?_, ?_, by rfl, by rfl, by simp [render]; rfl⟩
  · intro rest f env depth st hd hlen
    simp only [evaluateExpr]
    rw [if_neg (by simpa [MAX_RECURSION_DEPTH] using Nat.not_lt.mpr hd)]
    simp only [List.length_cons] at hlen
    simp [hlen]
  · intro c t e f env depth st st' hd hc
    simp only [evaluateExpr]
    rw [if_neg (by simpa [MAX_RECURSION_DEPTH] using Nat.not_lt.mpr hd)]
    simp [hc]
  · intro c t e f env depth st st' hd hc
    simp only [evaluateExpr]
    rw [if_neg (by simpa [MAX_RECURSION_DEPTH] using Nat.not_lt.mpr hd)]
    simp [hc]
  · intro c t e v f env depth st st' hd hc hv
    simp only [evaluateExpr]
    rw [if_neg (by simpa [MAX_RECURSION_DEPTH] using Nat.not_lt.mpr hd)]
    rw [if_neg (by simp)]
    rcases v with _ | b | _ | _ | _ | _ | _ | _ | _ <;>
      first
      | exact absurd rfl (hv b)
      | simp [hc]
  · intro c t e er f env depth st st' hd hc
    simp only [evaluateExpr]
    rw [if_neg (by simpa [MAX_RECURSION_DEPTH] using Nat.not_lt.mpr hd)]
    simp [hc]

/-- Witness for C5: the theorem applied at concrete inputs. -/
theorem C5_if_shortcircuit_witness :
    evaluateExpr 3 (.List [.If, .Boolean true]) 0 0 initState
      = (.err (.ArgumentCount ("if") 4), initState)
    ∧ evaluateExpr 3 (.List [.If, .Boolean true, .Integer 1, .Integer 2]) 0 0 initState
      = evaluateExpr 2 (.Integer 1) 0 1 initState
    ∧ evaluateExpr 3 (.List [.If, .Boolean false, .Integer 1, .Integer 2]) 0 0 initState
      = evaluateExpr 2 (.Integer 2) 0 1 initState
    ∧ evaluateExpr 3 (.List [.If, .Integer 7, .Integer 1, .Integer 2]) 0 0 initState
      = (.err (.IllegalArgument ("if") ("Condition must evaluate to bool")), initState)
    ∧ evaluateExpr 3 (.List [.If, .Symbol ("u"), .Integer 1, .Integer 2]) 0 0 initState
      = (.err (.UndefinedVariable ("u")), initState) := by
  obtain ⟨h1, h2, h3, h4, h5, _, _, _⟩ := C5_if_shortcircuit
  exact ⟨h1 [.Boolean true] 2 0 0 initState (by omega) (by simp),
    h2 (.Boolean true) (.Integer 1) (.Integer 2) 2 0 0 initState initState (by omega) (by rfl),
    h3 (.Boolean false) (.Integer 1) (.Integer 2) 2 0 0 initState initState (by omega) (by rfl),
    h4 (.Integer 7) (.Integer 1) (.Integer 2) (.Integer 7) 2 0 0 initState initState
      (by omega) (by rfl) (fun b h => Expr.noConfusion h),
    h5 (.Symbol ("u")) (.Integer 1) (.Integer 2) (.UndefinedVariable ("u")) 2 0 0 initState
      initState (by omega) (by rfl)⟩

/-- Claim C7: a def form must have exactly 3 elements and a Symbol as its
second element, else a reported error leaves the state unchanged; on success
the third element is evaluated eagerly (at depth 0, in the current
environment) and the resulting value is bound in the current frame by setVar,
with the result NoOp (Unit); setVar touches only the frame it addresses, so
no parent frame is modified; and a binding persists for later expressions in
the same environment: def x 10 followed by adding x and 5 yields 15. -/
theorem C7_def_current_frame :
    (∀ (rest : List Expr) (f env depth : Nat) (st : State), depth ≤ 1024 →
        (Expr.Keyword ("def") :: rest).length ≠ 3 →
      evaluateExpr (f+2) (.List (.Keyword ("def") :: rest)) env depth st
        = (.err (.ArgumentCount ("def") 3), st))
    ∧ (∀ (x e' : Expr) (f env depth : Nat) (st : State), depth ≤ 1024 →
        (∀ n, x ≠ .Symbol n) →
      evaluateExpr (f+2) (.List [.Keyword ("def"), x, e']) env depth st
        = (.err (.IllegalArgument ("def") ("Variable name must be a symbol")), st))
    ∧ (∀ (name : String) (e v : Expr) (f env depth : Nat) (st st' : State), depth ≤ 1024 →
        evaluateExpr f e env 0 st = (.ok v, st') →
      evaluateExpr (f+2) (.List [.Keyword ("def"), .Symbol name, e]) env depth st
        = (.ok .NoOp, st'.setVar env name v))
    ∧ (∀ (st : State) (r : Nat) (k : String) (v : Expr) (j : Nat), j ≠ r →
      (st.setVar r k v).scopes.get? j = st.scopes.get? j)
    ∧ (∀ (st : State) (r : Nat) (k : String) (v : Expr) (sc : Scope),
        st.scopes.get? r = some sc →
      (st.setVar r k v).scopes.get? r = some (sc.set k v))
    ∧ runProgram 10 [.List [.Keyword ("def"), .Symbol ("x"), .Integer 10],
        .List [.Op ("+"), .Symbol ("x"), .Integer 5]] 0 initState
      = ([.ok .NoOp, .ok (.Integer 15)], ⟨[⟨[(("x"), .Integer 10)], none⟩], []⟩) := by
  refine ⟨?_, ?_, ?_, ?_, ?_, by rfl⟩
  · intro rest f env depth st hd hlen
    simp only [evaluateExpr]
    rw [if_neg (by simpa [MAX_RECURSION_DEPTH] using Nat.not_lt.mpr hd)]
    simp only [List.length_cons] at hlen
    simp [evaluateDef, hlen]
  · intro x e' f env depth st hd hx
    simp only [evaluateExpr]
    rw [if_neg (by simpa [MAX_RECURSION_DEPTH] using Nat.not_lt.mpr hd)]
    simp only [evaluateDef]
    rw [if_neg (by simp)]
    rcases x with _ | _ | _ | _ | _ | n | _ | _ | _ <;>
      first
      | exact absurd rfl (hx n)
      | simp
  · intro name e v f env depth st st' hd he
    simp only [evaluateExpr]
    rw [if_neg (by simpa [MAX_RECURSION_DEPTH] using Nat.not_lt.mpr hd)]
    simp only [evaluateDef]
    rw [if_neg (by simp)]
    simp [he]
  · intro st r k v j hj
    unfold State.setVar
    cases h : st.scopes.get? r with
    | none => rfl
    | some sc =>
      simp only [List.get?_eq_getElem?] at *
      exact List.getElem?_set_ne (fun h' => hj h'.symm)
  · intro st r k v sc hsc
    unfold State.setVar
    rw [hsc]
    simp only [List.get?_eq_getElem?] at *
    exact List.getElem?_set_eq_of_lt _ (by
      have := List.getElem?_eq_some_iff.mp hsc
      exact this.1)

/-- Witness for C7: the theorem applied at concrete inputs. -/
theorem C7_def_current_frame_witness :
    evaluateExpr 4 (.List [.Keyword ("def"), .Symbol ("x")]) 0 0 initState
      = (.err (.ArgumentCount ("def") 3), initState)
    ∧ evaluateExpr 4 (.List [.Keyword ("def"), .Integer 9, .Integer 1]) 0 0 initState
      = (.err (.IllegalArgument ("def") ("Variable name must be a symbol")), initState)
    ∧ evaluateExpr 4 (.List [.Keyword ("def"), .Symbol ("x"), .Integer 10]) 0 0 initState
      = (.ok .NoOp, State.setVar initState 0 ("x") (.Integer 10))
    ∧ (State.setVar ⟨[⟨[], none⟩, ⟨[], some 0⟩], []⟩ 1 ("k") (.Integer 3)).scopes.get? 0
      = (⟨[⟨[], none⟩, ⟨[], some 0⟩], []⟩ : State).scopes.get? 0
    ∧ (State.setVar initState 0 ("k") (.Integer 3)).scopes.get? 0
      = some (Scope.set ⟨[], none⟩ ("k") (.Integer 3)) := by
  obtain ⟨h1, h2, h3, h4, h5, _⟩ := C7_def_current_frame
  exact ⟨h1 [.Symbol ("x")] 2 0 0 initState (by omega) (by simp),
    h2 (.Integer 9) (.Integer 1) 2 0 0 initState (by omega) (fun n h => Expr.noConfusion h),
    h3 ("x") (.Integer 10) (.Integer 10) 2 0 0 initState initState (by omega) (by rfl),
    h4 ⟨[⟨[], none⟩, ⟨[], some 0⟩], []⟩ 1 ("k") (.Integer 3) 0 (by omega),
    h5 initState 0 ("k") (.Integer 3) ⟨[], none⟩ (by rfl)⟩

/-- Claim C8 counterexample: calling an unbound Symbol produces an
undefined-variable error, not the undefined-function error the claim
requires for call position. -/
theorem C8_counterexample_unbound_call :
    evaluate 3 (.List [.Symbol ("f")]) 0 initState
      = (.err (.UndefinedVariable ("f")), initState)
    ∧ (Outcome.err (.UndefinedVariable ("f")))
        ≠ .err (.UndefinedFunction ("f")) := by
  refine ⟨by rfl, by simp⟩

/-- Claim C8 as amended: a list whose head Symbol is unbound yields an
undefined-variable error (the same error as a bare unbound Symbol); only a
head Symbol bound to a non-Closure value yields the undefined-function
error. -/
theorem C8_amended_lookup_errors :
    (∀ (s : String) (rest : List Expr) (f env depth : Nat) (st : State), depth ≤ 1024 →
        st.get env s = none →
      evaluateExpr (f+1) (.List (.Symbol s :: rest)) env depth st
        = (.err (.UndefinedVariable s), st))
    ∧ (∀ (s : String) (rest : List Expr) (v : Expr) (f env depth : Nat) (st : State),
        depth ≤ 1024 → st.get env s = some v → (∀ p b e, v ≠ .Lambda p b e) →
      evaluateExpr (f+1) (.List (.Symbol s :: rest)) env depth st
        = (.err (.UndefinedFunction s), st))
    ∧ (∀ (s : String) (f env depth : Nat) (st : State), depth ≤ 1024 →
        st.get env s = none →
      evaluateExpr (f+1) (.Symbol s) env depth st
        = (.err (.UndefinedVariable s), st)) := by
  refine ⟨?_, ?_, ?_⟩
  · intro s rest f env depth st hd hv
    simp only [evaluateExpr]
    rw [if_neg (by simpa [MAX_RECURSION_DEPTH] using Nat.not_lt.mpr hd)]
    simp [hv]
  · intro s rest v f env depth st hd hv hnl
    simp only [evaluateExpr]
    rw [if_neg (by simpa [MAX_RECURSION_DEPTH] using Nat.not_lt.mpr hd)]
    rcases v with _ | _ | _ | _ | _ | _ | _ | ⟨p, b, e⟩ | _ <;>
      first
      | exact absurd rfl (hnl p b e)
      | simp [hv]
  · intro s f env depth st hd hv
    simp only [evaluateExpr]
    rw [if_neg (by simpa [MAX_RECURSION_DEPTH] using Nat.not_lt.mpr hd)]
    simp [hv]

/-- Witness for the amended C8: the theorem applied at concrete inputs; the
environment of the second part binds the name to an Integer. -/
theorem C8_amended_lookup_errors_witness :
    evaluateExpr 2 (.List [.Symbol ("g")]) 0 0 initState
      = (.err (.UndefinedVariable ("g")), initState)
    ∧ evaluateExpr 2 (.List [.Symbol ("v"), .Integer 1]) 0 0
        ⟨[⟨[(("v"), .Integer 7)], none⟩], []⟩
      = (.err (.UndefinedFunction ("v")), ⟨[⟨[(("v"), .Integer 7)], none⟩], []⟩)
    ∧ evaluateExpr 2 (.Symbol ("g")) 0 0 initState
      = (.err (.UndefinedVariable ("g")), initState) := by
  obtain ⟨h1, h2, h3⟩ := C8_amended_lookup_errors
  exact ⟨h1 ("g") [] 1 0 0 initState (by omega) (by rfl),
    h2 ("v") [.Integer 1] (.Integer 7) 1 0 0 ⟨[⟨[(("v"), .Integer 7)], none⟩], []⟩
      (by omega) (by rfl) (fun p b e h => Expr.noConfusion h),
    h3 ("g") 1 0 0 initState (by omega) (by rfl)⟩

/-- Claim C4 counterexample: the exact scenario of the claim fails on the
code, because evaluate_lambda rejects a bare-symbol body (the body must be a
list): the defun reports an illegal-argument error, the name f is never
bound, and the final call fails with an undefined-variable error instead of
returning 2. -/
theorem C4_counterexample_bare_symbol_body :
    (runProgram 30 [.List [.Keyword ("def"), .Symbol ("x"), .Integer 1],
      .List [.Keyword ("defun"), .Symbol ("f"),
        .List [.Keyword ("lambda"), .List [], .Symbol ("x")]],
      .List [.Keyword ("def"), .Symbol ("x"), .Integer 2],
      .List [.Symbol ("f")]] 0 initState).1
    = [.ok .NoOp,
       .err (.IllegalArgument ("lambda") ("Function body must be an evaluable list")),
       .ok .NoOp,
       .err (.UndefinedVariable ("f"))] := by rfl

/-- Claim C4 as amended: with the body written as a list, the closure
captures the defining environment by shared reference and a call extends the
captured environment, not the caller's: after def x 1, defun f with body
adding x and 0, def x 2, calling f returns 2 (the closure observes the
frame's current state, not a snapshot); and calling f from inside a closure g
whose own frame binds x to 99 still returns 1 in a program without the
rebinding of x, because the child frame of the call extends f's captured
(root) environment rather than g's frame. -/
theorem C4_amended_shared_capture :
    (runProgram 30 [.List [.Keyword ("def"), .Symbol ("x"), .Integer 1],
      .List [.Keyword ("defun"), .Symbol ("f"),
        .List [.Keyword ("lambda"), .List [],
          .List [.Op ("+"), .Symbol ("x"), .Integer 0]]],
      .List [.Keyword ("def"), .Symbol ("x"), .Integer 2],
      .List [.Symbol ("f")]] 0 initState).1
    = [.ok .NoOp, .ok .NoOp, .ok .NoOp, .ok (.Integer 2)]
    ∧ (runProgram 30 [.List [.Keyword ("def"), .Symbol ("x"), .Integer 1],
      .List [.Keyword ("defun"), .Symbol ("f"),
        .List [.Keyword ("lambda"), .List [],
          .List [.Op ("+"), .Symbol ("x"), .Integer 0]]],
      .List [.Keyword ("defun"), .Symbol ("g"),
        .List [.Keyword ("lambda"), .List [.Symbol ("x")],
          .List [.Symbol ("f")]]],
      .List [.Symbol ("g"), .Integer 99]] 0 initState).1
    = [.ok .NoOp, .ok .NoOp, .ok .NoOp, .ok (.Integer 1)] := by
  exact ⟨by rfl, by rfl⟩

/-- Claim C1: calling the one-parameter closure f with no arguments makes the
evaluator index past the end of the call list, a host-level panic rather than
a reported argument-count error; and calling it with two arguments succeeds
(the extra argument is silently ignored) rather than failing. -/
theorem C1_closure_arity_panic :
    (runProgram 30 [.List [.Keyword ("defun"), .Symbol ("f"),
        .List [.Keyword ("lambda"), .List [.Symbol ("x")],
          .List [.Op ("+"), .Symbol ("x"), .Integer 0]]],
      .List [.Symbol ("f")]] 0 initState).1
    = [.ok .NoOp, .panic]
    ∧ (runProgram 30 [.List [.Keyword ("defun"), .Symbol ("f"),
        .List [.Keyword ("lambda"), .List [.Symbol ("x")],
          .List [.Op ("+"), .Symbol ("x"), .Integer 0]]],
      .List [.Symbol ("f"), .Integer 1, .Integer 2]] 0 initState).1
    = [.ok .NoOp, .ok (.Integer 1)] := by
  exact ⟨by rfl, by rfl⟩

/-- Claim C2: division by zero is a host-level panic (Rust integer division),
not a reported EvalError; with non-zero divisors the result is the
truncating (toward zero) left-fold quotient. -/
theorem C2_division_by_zero_panics :
    evaluate 10 (.List [.Op ("/"), .Integer 1, .Integer 0]) 0 initState
      = (.panic, initState)
    ∧ evaluate 10 (.List [.Op ("/"), .Integer 7, .Integer 2]) 0 initState
      = (.ok (.Integer 3), initState)
    ∧ evaluate 10 (.List [.Op ("/"), .Integer (-7), .Integer 2]) 0 initState
      = (.ok (.Integer (-3)), initState)
    ∧ evaluate 10 (.List [.Op ("/"), .Integer 100, .Integer 10, .Integer 2]) 0 initState
      = (.ok (.Integer 5), initState) := by
  exact ⟨by rfl, by rfl, by rfl, by rfl⟩

/-- Claim C10 counterexample: a def whose value expression contains a nested
def errors as a whole, yet the nested def has already mutated the
environment: after the failing outer def, y is bound even though the form
returned an error, so the environment is not unchanged. -/
theorem C10_counterexample_nested_def :
    evaluate 10 (.List [.Keyword ("def"), .Symbol ("x"),
        .List [.Op ("+"), .List [.Keyword ("def"), .Symbol ("y"), .Integer 1], .Integer 1]])
        0 initState
      = (.err (.IllegalArgument ("+") ("All arguments must be numbers")),
          ⟨[⟨[(("y"), .Integer 1)], none⟩], []⟩)
    ∧ State.get ⟨[⟨[(("y"), .Integer 1)], none⟩], []⟩ 0 ("y") = some (.Integer 1)
    ∧ State.get initState 0 ("y") = none := by
  exact ⟨by rfl, by rfl, by rfl⟩

/-- Claim C10 as amended: def and defun themselves never create or overwrite
a binding when they return an error. On arity and name-type errors the state
is returned unchanged; when evaluation of the def value expression fails, the
returned state is exactly the state produced by that partial evaluation (no
setVar is applied), though that evaluation may itself have mutated the
environment; defun's lambda validation evaluates nothing, so a failing defun
returns the state unchanged. -/
theorem C10_amended_no_binding_on_error :
    (∀ (rest : List Expr) (f env depth : Nat) (st : State), depth ≤ 1024 →
        (Expr.Keyword ("def") :: rest).length ≠ 3 →
      evaluateExpr (f+2) (.List (.Keyword ("def") :: rest)) env depth st
        = (.err (.ArgumentCount ("def") 3), st))
    ∧ (∀ (x e' : Expr) (f env depth : Nat) (st : State), depth ≤ 1024 →
        (∀ n, x ≠ .Symbol n) →
      evaluateExpr (f+2) (.List [.Keyword ("def"), x, e']) env depth st
        = (.err (.IllegalArgument ("def") ("Variable name must be a symbol")), st))
    ∧ (∀ (name : String) (e : Expr) (er : EvalError) (f env depth : Nat) (st st' : State),
        depth ≤ 1024 → evaluateExpr f e env 0 st = (.err er, st') →
      evaluateExpr (f+2) (.List [.Keyword ("def"), .Symbol name, e]) env depth st
        = (.err er, st'))
    ∧ (∀ (rest : List Expr) (f env depth : Nat) (st : State), depth ≤ 1024 →
        (Expr.Keyword ("defun") :: rest).length ≠ 3 →
      evaluateExpr (f+1) (.List (.Keyword ("defun") :: rest)) env depth st
        = (.err (.ArgumentCount ("defun") 3), st))
    ∧ (∀ (x e' : Expr) (f env depth : Nat) (st : State), depth ≤ 1024 →
        (∀ n, x ≠ .Symbol n) →
      evaluateExpr (f+1) (.List [.Keyword ("defun"), x, e']) env depth st
        = (.err (.IllegalArgument ("defun") ("Function name must be a symbol")), st))
    ∧ (∀ (name : String) (lam : Expr) (er : EvalError) (f env depth : Nat) (st : State),
        depth ≤ 1024 → evaluateLambda lam env = .error er →
      evaluateExpr (f+1) (.List [.Keyword ("defun"), .Symbol name, lam]) env depth st
        = (.err er, st)) := by
  refine ⟨?_, ?_, ?_, ?_, ?_, ?_⟩
  · intro rest f env depth st hd hlen
    simp only [evaluateExpr]
    rw [if_neg (by simpa [MAX_RECURSION_DEPTH] using Nat.not_lt.mpr hd)]
    simp only [List.length_cons] at hlen
    simp [evaluateDef, hlen]
  · intro x e' f env depth st hd hx
    simp only [evaluateExpr]
    rw [if_neg (by simpa [MAX_RECURSION_DEPTH] using Nat.not_lt.mpr hd)]
    simp only [evaluateDef]
    rw [if_neg (by simp)]
    rcases x with _ | _ | _ | _ | _ | n | _ | _ | _ <;>
      first
      | exact absurd rfl (hx n)
      | simp
  · intro name e er f env depth st st' hd he
    simp only [evaluateExpr]
    rw [if_neg (by simpa [MAX_RECURSION_DEPTH] using Nat.not_lt.mpr hd)]
    simp only [evaluateDef]
    rw [if_neg (by simp)]
    simp [he]
  · intro rest f env depth st hd hlen
    simp only [evaluateExpr]
    rw [if_neg (by simpa [MAX_RECURSION_DEPTH] using Nat.not_lt.mpr hd)]
    simp only [List.length_cons] at hlen
    simp [evaluateDefun, hlen]
  · intro x e' f env depth st hd hx
    simp only [evaluateExpr]
    rw [if_neg (by simpa [MAX_RECURSION_DEPTH] using Nat.not_lt.mpr hd)]
    simp only [evaluateDefun]
    rw [if_neg (by simp)]
    rcases x with _ | _ | _ | _ | _ | n | _ | _ | _ <;>
      first
      | exact absurd rfl (hx n)
      | simp
  · intro name lam er f env depth st hd hl
    simp only [evaluateExpr]
    rw [if_neg (by simpa [MAX_RECURSION_DEPTH] using Nat.not_lt.mpr hd)]
    simp only [evaluateDefun]
    rw [if_neg (by simp)]
    simp [hl]

/-- Witness for the amended C10: the theorem applied at concrete inputs. The
failing value expression in the third part is an unbound symbol, which leaves
the state unchanged; the failing lambda in the last part has a bare-symbol
body. -/
theorem C10_amended_no_binding_on_error_witness :
    evaluateExpr 4 (.List [.Keyword ("def"), .Symbol ("x")]) 0 0 initState
      = (.err (.ArgumentCount ("def") 3), initState)
    ∧ evaluateExpr 4 (.List [.Keyword ("def"), .Integer 9, .Integer 1]) 0 0 initState
      = (.err (.IllegalArgument ("def") ("Variable name must be a symbol")), initState)
    ∧ evaluateExpr 4 (.List [.Keyword ("def"), .Symbol ("x"), .Symbol ("u")]) 0 0 initState
      = (.err (.UndefinedVariable ("u")), initState)
    ∧ evaluateExpr 3 (.List [.Keyword ("defun"), .Symbol ("f")]) 0 0 initState
      = (.err (.ArgumentCount ("defun") 3), initState)
    ∧ evaluateExpr 3 (.List [.Keyword ("defun"), .Integer 9, .Integer 1]) 0 0 initState
      = (.err (.IllegalArgument ("defun") ("Function name must be a symbol")), initState)
    ∧ evaluateExpr 3 (.List [.Keyword ("defun"), .Symbol ("f"),
        .List [.Keyword ("lambda"), .List [], .Symbol ("x")]]) 0 0 initState
      = (.err (.IllegalArgument ("lambda") ("Function body must be an evaluable list")),
          initState) := by
  obtain ⟨h1, h2, h3, h4, h5, h6⟩ := C10_amended_no_binding_on_error
  exact ⟨h1 [.Symbol ("x")] 2 0 0 initState (by omega) (by simp),
    h2 (.Integer 9) (.Integer 1) 2 0 0 initState (by omega) (fun n h => Expr.noConfusion h),
    h3 ("x") (.Symbol ("u")) (.UndefinedVariable ("u")) 2 0 0 initState initState
      (by omega) (by rfl),
    h4 [.Symbol ("f")] 2 0 0 initState (by omega) (by simp),
    h5 (.Integer 9) (.Integer 1) 2 0 0 initState (by omega) (fun n h => Expr.noConfusion h),
    h6 ("f") (.List [.Keyword ("lambda"), .List [], .Symbol ("x")])
      (.IllegalArgument ("lambda") ("Function body must be an evaluable list"))
      2 0 0 initState (by omega) (by rfl)⟩

/-- Lookup of a name bound in the root frame, from the root frame itself or
from any frame whose parent is the root. -/
theorem get_root_binding (st : State) (r : Nat) (nm : String) (lam : Expr)
    (hroot : st.scopes[0]? = some ⟨[(nm, lam)], none⟩)
    (hr : r = 0 ∨ st.scopes[r]? = some ⟨[], some 0⟩) :
    st.get r nm = some lam := by
  rcases hr with rfl | hr
  · simp [State.get, getAux, hroot, Scope.find, List.lookup]
  · rcases Nat.eq_zero_or_pos r with rfl | hpos
    · rw [hroot] at hr
      simp [Scope.mk.injEq] at hr
    · obtain ⟨r1, rfl⟩ : ∃ r1, r = r1 + 1 := ⟨r - 1, by omega⟩
      simp [State.get, getAux, hr, hroot, Scope.find, List.lookup]

/-- Appending a frame with extend does not change the root frame. -/
theorem extend_root (st : State) (p : Nat) (sc : Scope)
    (h : st.scopes[0]? = some sc) : (st.extend p).1.scopes[0]? = some sc := by
  have hlen : 0 < st.scopes.length := by
    cases hs : st.scopes with
    | nil => rw [hs] at h; simp at h
    | cons a l => simp
  simp only [State.extend]
  rw [List.getElem?_append, if_pos hlen]
  exact h

/-- The frame appended by extend is empty with the requested parent, and its
reference is the previous store length. -/
theorem extend_new (st : State) (p : Nat) :
    (st.extend p).1.scopes[(st.extend p).2]? = some ⟨[], some p⟩ := by
  simp only [State.extend]
  exact List.getElem?_concat_length _ _

/-- A closure whose body immediately re-invokes the closure drives the depth
counter up by one per nested call, reaching the limit: from depth d with
enough fuel, the call reports the recursion-limit error. -/
theorem selfcall_limit (nm : String) : ∀ fuel d r (st : State),
    st.scopes[0]? = some ⟨[(nm, .Lambda [] [.Symbol nm] 0)], none⟩ →
    (r = 0 ∨ st.scopes[r]? = some ⟨[], some 0⟩) →
    d ≤ 1025 → 1026 - d ≤ fuel →
    (evaluateExpr fuel (.List [.Symbol nm]) r d st).1
      = .err (.MaximumRecursionDepthReached 1024) := by
  intro fuel
  induction fuel with
  | zero => intro d r st _ _ hd hf; omega
  | succ f ih =>
    intro d r st hroot hr hd hf
    by_cases hd1 : d > 1024
    · simp only [evaluateExpr]
      rw [if_pos (by simpa [MAX_RECURSION_DEPTH] using hd1)]
      simp [MAX_RECURSION_DEPTH]
    · have hget : st.get r nm = some (.Lambda [] [.Symbol nm] 0) :=
        get_root_binding st r nm _ hroot hr
      simp only [evaluateExpr]
      rw [if_neg (by simpa [MAX_RECURSION_DEPTH] using hd1)]
      simp only [hget, bindParams]
      exact ih (d + 1) (st.extend 0).2 (st.extend 0).1
        (extend_root st 0 _ hroot) (Or.inr (extend_new st 0))
        (by omega) (by omega)

/-- A closure whose body re-invokes the closure through a def form never
reaches the depth limit, because evaluate_def restarts the depth counter at
0 for the value expression: for every fuel the evaluation runs out of fuel
(the model of the host stack overflowing). -/
theorem defloop_diverges : ∀ fuel d r (st : State),
    st.scopes[0]?
      = some ⟨[(("g"), .Lambda []
          [.Keyword ("def"), .Symbol ("x"), .List [.Symbol ("g")]] 0)], none⟩ →
    (r = 0 ∨ st.scopes[r]? = some ⟨[], some 0⟩) →
    d ≤ 1023 →
    (evaluateExpr fuel (.List [.Symbol ("g")]) r d st).1 = .diverge := by
  intro fuel
  induction fuel using Nat.strong_induction_on with
  | _ fuel ih =>
    intro d r st hroot hr hd
    have hget : st.get r ("g") = some (.Lambda []
        [.Keyword ("def"), .Symbol ("x"), .List [.Symbol ("g")]] 0) :=
      get_root_binding st r _ _ hroot hr
    match fuel with
    | 0 => simp [evaluateExpr]
    | 1 =>
      simp only [evaluateExpr]
      rw [if_neg (by simpa [MAX_RECURSION_DEPTH] using (by omega : ¬ d > 1024))]
      simp [hget, bindParams, evaluateExpr]
    | 2 =>
      simp only [evaluateExpr]
      rw [if_neg (by simpa [MAX_RECURSION_DEPTH] using (by omega : ¬ d > 1024))]
      simp [hget, bindParams]
      rw [if_neg (by simp [MAX_RECURSION_DEPTH]; omega)]
      simp [evaluateDef]
    | (f+3) =>
      simp only [evaluateExpr]
      rw [if_neg (by simpa [MAX_RECURSION_DEPTH] using (by omega : ¬ d > 1024))]
      simp [hget, bindParams]
      rw [if_neg (by simp [MAX_RECURSION_DEPTH]; omega)]
      have hdv : (evaluateExpr f (.List [.Symbol ("g")]) (st.extend 0).2 0
          (st.extend 0).1).1 = .diverge :=
        ih f (by omega) 0 (st.extend 0).2 (st.extend 0).1
          (extend_root st 0 _ hroot) (Or.inr (extend_new st 0)) (by omega)
      rcases hp : evaluateExpr f (.List [.Symbol ("g")]) (st.extend 0).2 0
          (st.extend 0).1 with ⟨o, st2⟩
      rw [hp] at hdv
      simp only at hdv
      subst hdv
      simp [evaluateDef, hp]

/-- Claim C3 counterexample: a self-referential closure with no base case
whose self-reference goes through a def form does not fail with the
recursion-limit error: because evaluate_def restarts the depth counter at 0,
the depth limit is never reached and evaluation exhausts the host stack (the
diverge outcome) even with fuel for thousands of nested calls — far more
than the 1026 the limit would need if every recursive call incremented the
counter. -/
theorem C3_counterexample_depth_reset :
    evaluate 5000 (.List [.Keyword ("defun"), .Symbol ("g"),
        .List [.Keyword ("lambda"), .List [],
          .List [.Keyword ("def"), .Symbol ("x"), .List [.Symbol ("g")]]]]) 0 initState
      = (.ok .NoOp, ⟨[⟨[(("g"), .Lambda []
          [.Keyword ("def"), .Symbol ("x"), .List [.Symbol ("g")]] 0)], none⟩], []⟩)
    ∧ (evaluate 5000 (.List [.Symbol ("g")]) 0
        ⟨[⟨[(("g"), .Lambda []
          [.Keyword ("def"), .Symbol ("x"), .List [.Symbol ("g")]] 0)], none⟩], []⟩).1
      = .diverge := by
  exact ⟨by rfl, defloop_diverges 5000 0 0 _ (by rfl) (Or.inl rfl) (by omega)⟩

/-- Claim C3 as amended: the depth counter is checked on entry of
evaluate_expr against MAX_RECURSION_DEPTH = 1024, and any evaluation entered
at a depth beyond the limit aborts with the recursion-limit error; the
recursive calls made for if branches, closure arguments and closure bodies
increment the counter, so a self-referential closure whose body directly
re-invokes itself fails with the recursion-limit error; but the
sub-evaluations started by def, print and the operators restart the counter
at 0, so self-reference through those forms is not caught by the limit (see
the counterexample). -/
theorem C3_amended_depth_limit :
    MAX_RECURSION_DEPTH = 1024
    ∧ (∀ (e : Expr) (f env depth : Nat) (st : State), depth > MAX_RECURSION_DEPTH →
        evaluateExpr (f+1) e env depth st
          = (.err (.MaximumRecursionDepthReached MAX_RECURSION_DEPTH), st))
    ∧ evaluate 2000 (.List [.Keyword ("defun"), .Symbol ("f"),
        .List [.Keyword ("lambda"), .List [], .List [.Symbol ("f")]]]) 0 initState
      = (.ok .NoOp, ⟨[⟨[(("f"), .Lambda [] [.Symbol ("f")] 0)], none⟩], []⟩)
    ∧ (evaluate 2000 (.List [.Symbol ("f")]) 0
        ⟨[⟨[(("f"), .Lambda [] [.Symbol ("f")] 0)], none⟩], []⟩).1
      = .err (.MaximumRecursionDepthReached 1024) := by
  refine ⟨rfl, ?_, by rfl, ?_⟩
  · intro e f env depth st hdep
    simp only [evaluateExpr]
    rw [if_pos hdep]
  · exact selfcall_limit ("f") 2000 0 0 _ (by rfl) (Or.inl rfl) (by omega) (by omega)

/-- Witness for the amended C3: the depth guard applied at a concrete
over-limit depth. -/
theorem C3_amended_depth_limit_witness :
    evaluateExpr 1 (.Integer 0) 0 1025 initState
      = (.err (.MaximumRecursionDepthReached MAX_RECURSION_DEPTH), initState) := by
  exact C3_amended_depth_limit.2.1 (.Integer 0) 0 0 1025 initState (by decide)

end Lisper
